import Mathlib

/-!
os-image-composer: repository metadata fetch and template validation.

A shallow embedding of `internal/debutils/resolver.go` (`ParsePrimary`) together
with the two collaborators it calls (`Download`, `Decompress`), and of the image
template validator exercised by `internal/validate/validate_test.go`.

Go values are embedded as follows.

* An `error` is its `Error()` text; the nil error is `none`.
* A slice result that Go code returns as `nil` is `none`, an allocated slice
  `[]T{...}` is `some xs`; `len` of either kind is given by `sliceLen`.
* A collaborator is a function on an explicit world state, so that its answer
  may depend on everything that happened before the call.
* Every collaborator call and every write to standard output is appended to a
  trace, in program order.
-/

namespace Debutils

/-- A non-nil Go `error` value, identified by the text of its `Error()` method. -/
structure GoError where
  msg : String
deriving DecidableEq, Repr

/-- Modelled from the spec: the record type `provider.PackageInfo`, whose declaration
is outside the resolver source; the fields are the ones of the data model
(name, version, architecture, dependencies, description). -/
structure PackageInfo where
  Name : String
  Version : String
  Architecture : String
  Dependencies : List String
  Description : String
deriving DecidableEq, Repr

/-- What a collaborator hands back: the Go pair `([]string, error)`. -/
structure FilesResult where
  files : List String
  err : Option GoError
deriving DecidableEq, Repr

/-- The two collaborators of the resolver, over a world state `σ`:
`Download(url, destPath)` and `Decompress(path)`. -/
structure Collaborators (σ : Type) where
  Download : String → String → σ → FilesResult × σ
  Decompress : String → σ → FilesResult × σ

/-- The observable effects of one run, in program order. -/
inductive Effect where
  | download (url dest : String)
  | decompress (path : String)
  | stdout (text : String)
deriving DecidableEq, Repr

/-- How a call of `ParsePrimary` ends: it returns the Go pair
`([]provider.PackageInfo, error)`, or the runtime aborts it (index out of range). -/
inductive Completion where
  | returned (pkgs : Option (List PackageInfo)) (err : Option GoError)
  | panicked (reason : String)
deriving DecidableEq, Repr

/-- A finished run: how it ended, what it did, and the world it left behind. -/
structure Outcome (σ : Type) where
  completion : Completion
  trace : List Effect
  world : σ

/-- Go `len` on a slice value (`len(nil) = 0`). -/
def sliceLen {α : Type} : Option (List α) → Nat
  | none => 0
  | some xs => xs.length

/-- The verb `%v` applied to an `error`: its `Error()` text. -/
def fmtError (e : GoError) : String := e.msg

/-- The verb `%v` applied to a `[]string`: the elements separated by blanks, in brackets. -/
def fmtStrings (xs : List String) : String := "[" ++ " ".intercalate xs ++ "]"

/-- The local `PkgMetaFile := "/tmp/Packages.gz"` of `ParsePrimary`. -/
def PkgMetaFile : String := "/tmp/Packages.gz"

/-- The error built by `fmt.Errorf("failed to download repo file: %v", err)`. -/
def downloadFailed (err : GoError) : GoError :=
  ⟨"failed to download repo file: " ++ fmtError err⟩

/-- The error built by `fmt.Errorf("no files downloaded from repo URL: %s", gzHref)`. -/
def noFilesDownloaded (gzHref : String) : GoError :=
  ⟨"no files downloaded from repo URL: " ++ gzHref⟩

/-- The line written by `fmt.Printf("decompressed files: %v\n", files)`. -/
def decompressedLine (files : List String) : String :=
  "decompressed files: " ++ fmtStrings files ++ "\n"

/-- The function `ParsePrimary(baseURL, gzHref)` of `resolver.go`, statement by statement. -/
def ParsePrimary {σ : Type} (c : Collaborators σ) (baseURL gzHref : String) (w : σ) :
    Outcome σ :=
  -- (the body never reads baseURL)
  -- zipFiles, err := Download(gzHref, PkgMetaFile)
  let dl := c.Download gzHref PkgMetaFile w
  let zipFiles := dl.1.files
  let t1 := [Effect.download gzHref PkgMetaFile]
  match dl.1.err with
  | some err =>
    -- return nil, fmt.Errorf("failed to download repo file: %v", err)
    ⟨.returned none (some (downloadFailed err)), t1, dl.2⟩
  | none =>
    if zipFiles.length == 0 then
      -- return []provider.PackageInfo{}, fmt.Errorf("no files downloaded ...", gzHref)
      ⟨.returned (some []) (some (noFilesDownloaded gzHref)), t1, dl.2⟩
    else
      -- zipFiles[0], a checked index
      match zipFiles[0]? with
      | none => ⟨.panicked "index out of range [0] with length 0", t1, dl.2⟩
      | some first =>
        -- files, err := Decompress(zipFiles[0])
        let dc := c.Decompress first dl.2
        let files := dc.1.files
        let t2 := t1 ++ [Effect.decompress first]
        match dc.1.err with
        | some err =>
          -- return []provider.PackageInfo{}, err
          ⟨.returned (some []) (some err), t2, dc.2⟩
        | none =>
          -- fmt.Printf("decompressed files: %v\n", files)
          -- return []provider.PackageInfo{}, nil
          ⟨.returned (some []) none, t2 ++ [Effect.stdout (decompressedLine files)], dc.2⟩

/-- The error component of a completed call (`none` is the nil error). -/
def Completion.err? : Completion → Option GoError
  | .returned _ err => err
  | .panicked _ => none

/-- The package slice of a completed call. -/
def Completion.pkgs? : Completion → Option (List PackageInfo)
  | .returned pkgs _ => pkgs
  | .panicked _ => none

/-- A call came back to its caller (no runtime abort). -/
def Completion.isReturned : Completion → Bool
  | .returned _ _ => true
  | .panicked _ => false

/-- The paths on which `Decompress` was invoked during a run, in order. -/
def decompressCalls : List Effect → List String
  | [] => []
  | .decompress p :: t => p :: decompressCalls t
  | _ :: t => decompressCalls t

/-- The `(url, destPath)` pairs on which `Download` was invoked during a run, in order. -/
def downloadCalls : List Effect → List (String × String)
  | [] => []
  | .download u d :: t => (u, d) :: downloadCalls t
  | _ :: t => downloadCalls t

/-! ### Concrete collaborators, used to run the model -/

/-- A collaborator pair with a call counter as world state: every call succeeds
with the given file lists. -/
def fixedCollab (dlFiles dcFiles : List String) : Collaborators Nat where
  Download := fun _ _ n => (⟨dlFiles, none⟩, n + 1)
  Decompress := fun _ n => (⟨dcFiles, none⟩, n + 1)

/-- A collaborator pair whose download fails with the given error. -/
def failingDownload (e : GoError) : Collaborators Nat where
  Download := fun _ _ n => (⟨[], some e⟩, n + 1)
  Decompress := fun _ n => (⟨[], none⟩, n + 1)

/-- A collaborator pair whose download succeeds and whose decompression fails. -/
def failingDecompress (dlFiles : List String) (e : GoError) : Collaborators Nat where
  Download := fun _ _ n => (⟨dlFiles, none⟩, n + 1)
  Decompress := fun _ n => (⟨[], some e⟩, n + 1)

end Debutils

namespace Validate

/-- The generic structural form a document is deserialized into (a key-value tree);
an object keeps its members as an association list. -/
inductive JSON where
  | null
  | bool (b : Bool)
  | num (n : Int)
  | str (s : String)
  | arr (items : List JSON)
  | obj (fields : List (String × JSON))

/-- Member `key` of an object; `none` when the member is absent or the value is not
an object. -/
def JSON.field? : JSON → String → Option JSON
  | .obj fields, key => fields.lookup key
  | _, _ => none

/-- The value reached by following a path of member names. -/
def JSON.at? : JSON → List String → Option JSON
  | j, [] => some j
  | j, key :: keys => (j.field? key).bind (fun v => v.at? keys)

/-- One schema-rule failure: the field path and a readable message. -/
structure Violation where
  path : String
  message : String
deriving DecidableEq, Repr

/-- The two ways validation fails: the bytes are not a document at all, or the
document breaks schema rules (the full list is carried). -/
inductive ValidationError where
  | malformedDocument
  | schemaViolation (violations : List Violation)
deriving DecidableEq, Repr

/-- Modelled from the spec: the value tables of the image-template schema, which is
stored outside the validator tests. `leafOk p v` says that the string `v` is an
admissible value of the leaf at schema path `p` (membership in an enumeration such as
the recognized `target.os` values, or a match of a pattern such as the supported
`systemConfigs.kernel.version` format). -/
structure ImageSchema where
  leafOk : String → String → Bool

/-- Modelled from the spec: required-field presence, type conformance and value
admissibility of one string leaf `key` of `parent`. -/
def requiredLeaf (S : ImageSchema) (parent : JSON) (schemaPath docPath key : String) :
    List Violation :=
  match parent.field? key with
  | none => [⟨docPath ++ "." ++ key, "required field is missing"⟩]
  | some (.str s) =>
    if S.leafOk (schemaPath ++ "." ++ key) s then []
    else [⟨docPath ++ "." ++ key, "value is not allowed"⟩]
  | some _ => [⟨docPath ++ "." ++ key, "must be a string"⟩]

/-- Modelled from the spec: a string leaf that may be absent. -/
def optionalLeaf (S : ImageSchema) (parent : JSON) (schemaPath docPath key : String) :
    List Violation :=
  match parent.field? key with
  | none => []
  | some _ => requiredLeaf S parent schemaPath docPath key

/-- Modelled from the spec: all of `keys` are required string leaves of `parent`. -/
def requiredLeaves (S : ImageSchema) (parent : JSON) (path : String) :
    List String → List Violation
  | [] => []
  | key :: keys => requiredLeaf S parent path path key ++ requiredLeaves S parent path keys

/-- Modelled from the spec: a required top-level block (`image`, `target`) that must be
an object carrying the given required leaves. -/
def checkSection (S : ImageSchema) (doc : JSON) (name : String) (keys : List String) :
    List Violation :=
  match doc.field? name with
  | none => [⟨name, "required field is missing"⟩]
  | some (.obj fields) => requiredLeaves S (.obj fields) name keys
  | some _ => [⟨name, "must be an object"⟩]

/-- Modelled from the spec: a package name is a non-empty string with no embedded
whitespace. -/
def checkPackage (docPath : String) : JSON → List Violation
  | .str s =>
    if s.toList.isEmpty || s.toList.any Char.isWhitespace then
      [⟨docPath, "package name must be non-empty and free of whitespace"⟩]
    else []
  | _ => [⟨docPath, "must be a string"⟩]

/-- Modelled from the spec: the package-name list of one configuration block, entry by
entry, `i` being the index of the first entry. -/
def checkPackages (docPath : String) : Nat → List JSON → List Violation
  | _, [] => []
  | i, p :: ps =>
    checkPackage (docPath ++ "[" ++ toString i ++ "]") p ++ checkPackages docPath (i + 1) ps

/-- Modelled from the spec: the kernel block of a configuration block, when present: an
object with a `version` that matches a supported pattern and a `cmdline` string. -/
def checkKernel (S : ImageSchema) (docPath : String) : JSON → List Violation
  | .obj fields =>
    requiredLeaf S (.obj fields) "systemConfigs.kernel" docPath "version" ++
      optionalLeaf S (.obj fields) "systemConfigs.kernel" docPath "cmdline"
  | _ => [⟨docPath, "must be an object"⟩]

/-- Modelled from the spec: one named configuration block: a required `name`, a
required package-name list, an optional kernel block. -/
def checkSystemConfig (S : ImageSchema) (docPath : String) (cfg : JSON) : List Violation :=
  match cfg with
  | .obj fields =>
    requiredLeaf S (.obj fields) "systemConfigs" docPath "name" ++
    (match (JSON.obj fields).field? "packages" with
      | none => [⟨docPath ++ ".packages", "required field is missing"⟩]
      | some (.arr ps) => checkPackages (docPath ++ ".packages") 0 ps
      | some _ => [⟨docPath ++ ".packages", "must be an array"⟩]) ++
    (match (JSON.obj fields).field? "kernel" with
      | none => []
      | some k => checkKernel S (docPath ++ ".kernel") k)
  | _ => [⟨docPath, "must be an object"⟩]

/-- Modelled from the spec: the configuration blocks in order, `i` being the index of
the first one. -/
def checkSystemConfigs (S : ImageSchema) : Nat → List JSON → List Violation
  | _, [] => []
  | i, cfg :: cfgs =>
    checkSystemConfig S ("systemConfigs[" ++ toString i ++ "]") cfg ++
      checkSystemConfigs S (i + 1) cfgs

/-- The names carried by the configuration blocks, in order. -/
def configNames : List JSON → List String
  | [] => []
  | cfg :: cfgs =>
    match cfg.field? "name" with
    | some (.str s) => s :: configNames cfgs
    | _ => configNames cfgs

/-- Modelled from the spec: every `systemConfigs[i].name` is unique. -/
def checkUniqueNames (cfgs : List JSON) : List Violation :=
  if (configNames cfgs).Nodup then []
  else [⟨"systemConfigs", "configuration names must be unique"⟩]

/-- Modelled from the spec: the required `systemConfigs` sequence. -/
def checkSystemConfigsField (S : ImageSchema) (doc : JSON) : List Violation :=
  match doc.field? "systemConfigs" with
  | none => [⟨"systemConfigs", "required field is missing"⟩]
  | some (.arr cfgs) => checkSystemConfigs S 0 cfgs ++ checkUniqueNames cfgs
  | some _ => [⟨"systemConfigs", "must be an array"⟩]

/-- Modelled from the spec: all violations of an image template, collected in one pass
and in document order of the schema (`image`, `target`, `systemConfigs`). -/
def imageViolations (S : ImageSchema) (doc : JSON) : List Violation :=
  match doc with
  | .obj fields =>
    checkSection S (.obj fields) "image" ["name", "version"] ++
    checkSection S (.obj fields) "target" ["os", "dist", "arch", "imageType"] ++
    checkSystemConfigsField S (.obj fields)
  | _ => [⟨"$", "must be an object"⟩]

/-- Modelled from the spec: the validator `ValidateImageJSON`, whose body is outside the
validator tests. The argument is the outcome of deserializing the payload bytes
(`none` when they are not parseable); the result is `none` for a valid document, in
Go terms the nil error. -/
def ValidateImageJSON (S : ImageSchema) (decoded : Option JSON) : Option ValidationError :=
  match decoded with
  | none => some .malformedDocument
  | some doc =>
    match imageViolations S doc with
    | [] => none
    | v :: vs => some (.schemaViolation (v :: vs))

/-- The required leaves of the `image` and `target` blocks, as (block, leaf) pairs. -/
def requiredLeafPaths : List (String × String) :=
  [("image", "name"), ("image", "version"),
   ("target", "os"), ("target", "dist"), ("target", "arch"), ("target", "imageType")]

/-- The document of `TestImageTemplateStructure` after the YAML to JSON step (object
members in the sorted order the JSON encoder emits). -/
def minimalTemplate : JSON :=
  .obj [
    ("image", .obj [("name", .str "test-image"), ("version", .str "1.0.0")]),
    ("systemConfigs", .arr [
      .obj [
        ("description", .str "Minimal test configuration"),
        ("kernel", .obj [("cmdline", .str "quiet"), ("version", .str "6.12")]),
        ("name", .str "minimal"),
        ("packages", .arr [.str "openssh-server"])]]),
    ("target", .obj [
      ("arch", .str "x86_64"), ("dist", .str "azl3"),
      ("imageType", .str "raw"), ("os", .str "azure-linux")])]

/-- The document of `TestImageTemplateMissingFields` after the YAML to JSON step. -/
def invalidTemplate : JSON :=
  .obj [
    ("image", .obj [("name", .str "test-image")]),
    ("systemConfigs", .arr [
      .obj [("name", .str "incomplete"), ("packages", .arr [.str "openssh-server"])]]),
    ("target", .obj [("arch", .str "x86_64"), ("dist", .str "azl3"), ("os", .str "azure-linux")])]

/-- What a schema has to admit for the minimal template: the values of its leaves. -/
def admitsMinimalTemplate (S : ImageSchema) : Prop :=
  S.leafOk "image.name" "test-image" = true ∧
  S.leafOk "image.version" "1.0.0" = true ∧
  S.leafOk "target.os" "azure-linux" = true ∧
  S.leafOk "target.dist" "azl3" = true ∧
  S.leafOk "target.arch" "x86_64" = true ∧
  S.leafOk "target.imageType" "raw" = true ∧
  S.leafOk "systemConfigs.name" "minimal" = true ∧
  S.leafOk "systemConfigs.kernel.version" "6.12" = true ∧
  S.leafOk "systemConfigs.kernel.cmdline" "quiet" = true

/-- A concrete schema table used to run the validator: enumerations for the target
leaves, a digits-and-dots test for kernel versions, any non-empty string elsewhere. -/
def sampleSchema : ImageSchema where
  leafOk := fun path v =>
    if path = "target.os" then ["azure-linux", "emt", "elxr"].contains v
    else if path = "target.dist" then ["azl3", "emt3", "elxr12"].contains v
    else if path = "target.arch" then ["x86_64", "aarch64"].contains v
    else if path = "target.imageType" then ["raw", "iso"].contains v
    else if path = "systemConfigs.kernel.version" then
      !v.toList.isEmpty && v.toList.all (fun ch => ch.isDigit || ch = '.')
    else !v.toList.isEmpty

end Validate

namespace Debutils

/-! ### Shared lemmas: the four ways through `ParsePrimary` -/

/-- The run of `ParsePrimary` when `Download` returns an error. -/
theorem ParsePrimary_of_download_err {σ : Type} (c : Collaborators σ) (baseURL gzHref : String)
    (w : σ) (e : GoError) (h : (c.Download gzHref PkgMetaFile w).1.err = some e) :
    ParsePrimary c baseURL gzHref w =
      ⟨.returned none (some (downloadFailed e)), [Effect.download gzHref PkgMetaFile],
        (c.Download gzHref PkgMetaFile w).2⟩ := by
  simp [ParsePrimary, h]

/-- The run of `ParsePrimary` when `Download` returns no file and no error. -/
theorem ParsePrimary_of_no_files {σ : Type} (c : Collaborators σ) (baseURL gzHref : String)
    (w : σ) (he : (c.Download gzHref PkgMetaFile w).1.err = none)
    (hf : (c.Download gzHref PkgMetaFile w).1.files = []) :
    ParsePrimary c baseURL gzHref w =
      ⟨.returned (some []) (some (noFilesDownloaded gzHref)),
        [Effect.download gzHref PkgMetaFile], (c.Download gzHref PkgMetaFile w).2⟩ := by
  simp [ParsePrimary, he, hf]

/-- The run of `ParsePrimary` when `Decompress` of the first file returns an error. -/
theorem ParsePrimary_of_decompress_err {σ : Type} (c : Collaborators σ)
    (baseURL gzHref : String) (w : σ) (first : String) (rest : List String) (e : GoError)
    (he : (c.Download gzHref PkgMetaFile w).1.err = none)
    (hf : (c.Download gzHref PkgMetaFile w).1.files = first :: rest)
    (hd : (c.Decompress first (c.Download gzHref PkgMetaFile w).2).1.err = some e) :
    ParsePrimary c baseURL gzHref w =
      ⟨.returned (some []) (some e),
        [Effect.download gzHref PkgMetaFile, Effect.decompress first],
        (c.Decompress first (c.Download gzHref PkgMetaFile w).2).2⟩ := by
  simp [ParsePrimary, he, hf, hd]

/-- The run of `ParsePrimary` when both collaborators succeed. -/
theorem ParsePrimary_of_decompress_ok {σ : Type} (c : Collaborators σ)
    (baseURL gzHref : String) (w : σ) (first : String) (rest : List String)
    (he : (c.Download gzHref PkgMetaFile w).1.err = none)
    (hf : (c.Download gzHref PkgMetaFile w).1.files = first :: rest)
    (hd : (c.Decompress first (c.Download gzHref PkgMetaFile w).2).1.err = none) :
    ParsePrimary c baseURL gzHref w =
      ⟨.returned (some []) none,
        [Effect.download gzHref PkgMetaFile, Effect.decompress first,
          Effect.stdout (decompressedLine
            (c.Decompress first (c.Download gzHref PkgMetaFile w).2).1.files)],
        (c.Decompress first (c.Download gzHref PkgMetaFile w).2).2⟩ := by
  simp [ParsePrimary, he, hf, hd]

/-- Every run of `ParsePrimary` is one of the four runs above. -/
theorem ParsePrimary_cases {σ : Type} (c : Collaborators σ) (baseURL gzHref : String) (w : σ) :
    (∃ e, (c.Download gzHref PkgMetaFile w).1.err = some e ∧
      ParsePrimary c baseURL gzHref w =
        ⟨.returned none (some (downloadFailed e)), [Effect.download gzHref PkgMetaFile],
          (c.Download gzHref PkgMetaFile w).2⟩) ∨
    ((c.Download gzHref PkgMetaFile w).1.err = none ∧
      (c.Download gzHref PkgMetaFile w).1.files = [] ∧
      ParsePrimary c baseURL gzHref w =
        ⟨.returned (some []) (some (noFilesDownloaded gzHref)),
          [Effect.download gzHref PkgMetaFile], (c.Download gzHref PkgMetaFile w).2⟩) ∨
    (∃ first rest e, (c.Download gzHref PkgMetaFile w).1.err = none ∧
      (c.Download gzHref PkgMetaFile w).1.files = first :: rest ∧
      (c.Decompress first (c.Download gzHref PkgMetaFile w).2).1.err = some e ∧
      ParsePrimary c baseURL gzHref w =
        ⟨.returned (some []) (some e),
          [Effect.download gzHref PkgMetaFile, Effect.decompress first],
          (c.Decompress first (c.Download gzHref PkgMetaFile w).2).2⟩) ∨
    (∃ first rest, (c.Download gzHref PkgMetaFile w).1.err = none ∧
      (c.Download gzHref PkgMetaFile w).1.files = first :: rest ∧
      (c.Decompress first (c.Download gzHref PkgMetaFile w).2).1.err = none ∧
      ParsePrimary c baseURL gzHref w =
        ⟨.returned (some []) none,
          [Effect.download gzHref PkgMetaFile, Effect.decompress first,
            Effect.stdout (decompressedLine
              (c.Decompress first (c.Download gzHref PkgMetaFile w).2).1.files)],
          (c.Decompress first (c.Download gzHref PkgMetaFile w).2).2⟩) := by
  cases he : (c.Download gzHref PkgMetaFile w).1.err with
  | some e => exact Or.inl ⟨e, rfl, ParsePrimary_of_download_err c baseURL gzHref w e he⟩
  | none =>
    cases hf : (c.Download gzHref PkgMetaFile w).1.files with
    | nil => exact Or.inr (Or.inl ⟨rfl, rfl, ParsePrimary_of_no_files c baseURL gzHref w he hf⟩)
    | cons first rest =>
      cases hd : (c.Decompress first (c.Download gzHref PkgMetaFile w).2).1.err with
      | some e =>
        exact Or.inr (Or.inr (Or.inl ⟨first, rest, e, rfl, rfl, hd,
          ParsePrimary_of_decompress_err c baseURL gzHref w first rest e he hf hd⟩))
      | none =>
        exact Or.inr (Or.inr (Or.inr ⟨first, rest, rfl, rfl, hd,
          ParsePrimary_of_decompress_ok c baseURL gzHref w first rest he hf hd⟩))

/-- Wrapping an error in the download-failure text changes it. -/
theorem downloadFailed_ne (e : GoError) : downloadFailed e ≠ e := by
  intro h
  have hm : (downloadFailed e).msg.length = e.msg.length := by rw [h]
  simp only [downloadFailed, fmtError, String.length_append] at hm
  have hpos : 0 < "failed to download repo file: ".length := by decide
  omega

/-! ### The claims about `ParsePrimary` -/

/-- C1 (empty-download guard): when the `Download` call made by `ParsePrimary` comes back
with no error and an empty file list, `ParsePrimary` returns a non-nil error (the
"no files downloaded" error) with an empty package slice, `Decompress` is not invoked,
and the world is the one `Download` left. -/
theorem ParsePrimary_empty_download_guard {σ : Type} (c : Collaborators σ)
    (baseURL gzHref : String) (w : σ)
    (he : (c.Download gzHref PkgMetaFile w).1.err = none)
    (hf : (c.Download gzHref PkgMetaFile w).1.files = []) :
    (ParsePrimary c baseURL gzHref w).completion =
        .returned (some []) (some (noFilesDownloaded gzHref)) ∧
      (ParsePrimary c baseURL gzHref w).completion.err? ≠ none ∧
      sliceLen (ParsePrimary c baseURL gzHref w).completion.pkgs? = 0 ∧
      decompressCalls (ParsePrimary c baseURL gzHref w).trace = [] ∧
      (ParsePrimary c baseURL gzHref w).world = (c.Download gzHref PkgMetaFile w).2 := by
  rw [ParsePrimary_of_no_files c baseURL gzHref w he hf]
  simp [Completion.err?, Completion.pkgs?, sliceLen, decompressCalls]

/-- C1, instance: a download that yields no file and no error. -/
theorem ParsePrimary_empty_download_guard_witness :
    (ParsePrimary (fixedCollab [] ["Packages"]) "http://deb.debian.org/debian"
        "dists/stable/main/binary-amd64/Packages.gz" 0).completion =
        .returned (some [])
          (some (noFilesDownloaded "dists/stable/main/binary-amd64/Packages.gz")) ∧
      (ParsePrimary (fixedCollab [] ["Packages"]) "http://deb.debian.org/debian"
        "dists/stable/main/binary-amd64/Packages.gz" 0).completion.err? ≠ none ∧
      sliceLen (ParsePrimary (fixedCollab [] ["Packages"]) "http://deb.debian.org/debian"
        "dists/stable/main/binary-amd64/Packages.gz" 0).completion.pkgs? = 0 ∧
      decompressCalls (ParsePrimary (fixedCollab [] ["Packages"]) "http://deb.debian.org/debian"
        "dists/stable/main/binary-amd64/Packages.gz" 0).trace = [] ∧
      (ParsePrimary (fixedCollab [] ["Packages"]) "http://deb.debian.org/debian"
        "dists/stable/main/binary-amd64/Packages.gz" 0).world =
        ((fixedCollab [] ["Packages"]).Download "dists/stable/main/binary-amd64/Packages.gz"
          PkgMetaFile 0).2 :=
  ParsePrimary_empty_download_guard (fixedCollab [] ["Packages"]) "http://deb.debian.org/debian"
    "dists/stable/main/binary-amd64/Packages.gz" 0 rfl rfl

/-- C2 (download failure propagates): when the `Download` call made by `ParsePrimary`
returns the error `e`, `ParsePrimary` returns the nil slice and the error whose text is
"failed to download repo file: " followed by the text of `e`, and `Decompress` is not
invoked. -/
theorem ParsePrimary_download_failure {σ : Type} (c : Collaborators σ)
    (baseURL gzHref : String) (w : σ) (e : GoError)
    (he : (c.Download gzHref PkgMetaFile w).1.err = some e) :
    (ParsePrimary c baseURL gzHref w).completion =
        .returned none (some ⟨"failed to download repo file: " ++ e.msg⟩) ∧
      (ParsePrimary c baseURL gzHref w).completion.err? ≠ none ∧
      (ParsePrimary c baseURL gzHref w).completion.pkgs? = none ∧
      decompressCalls (ParsePrimary c baseURL gzHref w).trace = [] := by
  rw [ParsePrimary_of_download_err c baseURL gzHref w e he]
  simp [Completion.err?, Completion.pkgs?, decompressCalls, downloadFailed, fmtError]

/-- C2, instance: a download that fails with "connection refused". -/
theorem ParsePrimary_download_failure_witness :
    (ParsePrimary (failingDownload ⟨"connection refused"⟩) "http://deb.debian.org/debian"
        "dists/stable/main/binary-amd64/Packages.gz" 0).completion =
        .returned none (some ⟨"failed to download repo file: " ++ "connection refused"⟩) ∧
      (ParsePrimary (failingDownload ⟨"connection refused"⟩) "http://deb.debian.org/debian"
        "dists/stable/main/binary-amd64/Packages.gz" 0).completion.err? ≠ none ∧
      (ParsePrimary (failingDownload ⟨"connection refused"⟩) "http://deb.debian.org/debian"
        "dists/stable/main/binary-amd64/Packages.gz" 0).completion.pkgs? = none ∧
      decompressCalls (ParsePrimary (failingDownload ⟨"connection refused"⟩)
        "http://deb.debian.org/debian"
        "dists/stable/main/binary-amd64/Packages.gz" 0).trace = [] :=
  ParsePrimary_download_failure (failingDownload ⟨"connection refused"⟩)
    "http://deb.debian.org/debian" "dists/stable/main/binary-amd64/Packages.gz" 0
    ⟨"connection refused"⟩ rfl

/-- C3 (decompression failure propagates as itself): when `Download` returns a non-empty
list without error and `Decompress`, applied to the first file in the world `Download`
left, returns the error `e`, then `ParsePrimary` returns exactly `e` with an empty
package slice; `e` is not the download-failure wrapping of itself. -/
theorem ParsePrimary_decompress_failure {σ : Type} (c : Collaborators σ)
    (baseURL gzHref : String) (w : σ) (first : String) (rest : List String) (e : GoError)
    (he : (c.Download gzHref PkgMetaFile w).1.err = none)
    (hf : (c.Download gzHref PkgMetaFile w).1.files = first :: rest)
    (hd : (c.Decompress first (c.Download gzHref PkgMetaFile w).2).1.err = some e) :
    (ParsePrimary c baseURL gzHref w).completion = .returned (some []) (some e) ∧
      (ParsePrimary c baseURL gzHref w).completion.err? ≠ some (downloadFailed e) ∧
      sliceLen (ParsePrimary c baseURL gzHref w).completion.pkgs? = 0 := by
  rw [ParsePrimary_of_decompress_err c baseURL gzHref w first rest e he hf hd]
  refine ⟨rfl, ?_, rfl⟩
  intro h
  exact downloadFailed_ne e (Option.some.inj h).symm

/-- C3, instance: one downloaded file whose decompression fails. -/
theorem ParsePrimary_decompress_failure_witness :
    (ParsePrimary (failingDecompress ["/tmp/Packages.gz"] ⟨"gzip: invalid header"⟩)
        "http://deb.debian.org/debian"
        "dists/stable/main/binary-amd64/Packages.gz" 0).completion =
        .returned (some []) (some ⟨"gzip: invalid header"⟩) ∧
      (ParsePrimary (failingDecompress ["/tmp/Packages.gz"] ⟨"gzip: invalid header"⟩)
        "http://deb.debian.org/debian"
        "dists/stable/main/binary-amd64/Packages.gz" 0).completion.err? ≠
        some (downloadFailed ⟨"gzip: invalid header"⟩) ∧
      sliceLen (ParsePrimary (failingDecompress ["/tmp/Packages.gz"] ⟨"gzip: invalid header"⟩)
        "http://deb.debian.org/debian"
        "dists/stable/main/binary-amd64/Packages.gz" 0).completion.pkgs? = 0 :=
  ParsePrimary_decompress_failure
    (failingDecompress ["/tmp/Packages.gz"] ⟨"gzip: invalid header"⟩)
    "http://deb.debian.org/debian" "dists/stable/main/binary-amd64/Packages.gz" 0
    "/tmp/Packages.gz" [] ⟨"gzip: invalid header"⟩ rfl rfl rfl

/-- C4, the code at the failing input: `Download` yields one file without error and
`Decompress` of that file yields no file and no error; `ParsePrimary` returns the nil
error with an empty package slice, after printing the empty listing. The same function
does reject an empty listing one step earlier: with the same request and a `Download`
that yields no file, it returns the "no files downloaded" error. -/
theorem ParsePrimary_zero_decompressed_at_failing_input :
    ((fixedCollab ["/tmp/Packages.gz"] []).Download
        "dists/stable/main/binary-amd64/Packages.gz" PkgMetaFile 0).1 =
        ⟨["/tmp/Packages.gz"], none⟩ ∧
      ((fixedCollab ["/tmp/Packages.gz"] []).Decompress "/tmp/Packages.gz" 1).1 = ⟨[], none⟩ ∧
      ParsePrimary (fixedCollab ["/tmp/Packages.gz"] []) "http://deb.debian.org/debian"
        "dists/stable/main/binary-amd64/Packages.gz" 0 =
        ⟨.returned (some []) none,
          [Effect.download "dists/stable/main/binary-amd64/Packages.gz" "/tmp/Packages.gz",
            Effect.decompress "/tmp/Packages.gz", Effect.stdout "decompressed files: []\n"],
          2⟩ ∧
      (ParsePrimary (fixedCollab [] []) "http://deb.debian.org/debian"
        "dists/stable/main/binary-amd64/Packages.gz" 0).completion =
        .returned (some [])
          (some ⟨"no files downloaded from repo URL: dists/stable/main/binary-amd64/Packages.gz"⟩) :=
  ⟨rfl, rfl, rfl, by decide⟩

/-- C5, the code at the failing input: `Download` yields `/tmp/Packages.gz` and
`Decompress` yields `/tmp/Packages`, both without error; `ParsePrimary` returns the nil
error together with a package slice of length zero, and all it did was the two
collaborator calls and the printing of the listing. -/
theorem ParsePrimary_no_records_at_failing_input :
    ParsePrimary (fixedCollab ["/tmp/Packages.gz"] ["/tmp/Packages"])
        "http://deb.debian.org/debian" "dists/stable/main/binary-amd64/Packages.gz" 0 =
        ⟨.returned (some []) none,
          [Effect.download "dists/stable/main/binary-amd64/Packages.gz" "/tmp/Packages.gz",
            Effect.decompress "/tmp/Packages.gz",
            Effect.stdout "decompressed files: [/tmp/Packages]\n"],
          2⟩ ∧
      (ParsePrimary (fixedCollab ["/tmp/Packages.gz"] ["/tmp/Packages"])
        "http://deb.debian.org/debian"
        "dists/stable/main/binary-amd64/Packages.gz" 0).completion.err? = none ∧
      sliceLen (ParsePrimary (fixedCollab ["/tmp/Packages.gz"] ["/tmp/Packages"])
        "http://deb.debian.org/debian"
        "dists/stable/main/binary-amd64/Packages.gz" 0).completion.pkgs? = 0 :=
  ⟨rfl, by decide, by decide⟩

/-- C6, counterexample: two requests that differ in both the base URL and the href hand
`Download` the same destination path. -/
theorem ParsePrimary_shared_destination_counterexample :
    ("http://deb.debian.org/debian", "dists/stable/main/binary-amd64/Packages.gz") ≠
        ("http://archive.ubuntu.com/ubuntu", "dists/noble/main/binary-amd64/Packages.gz") ∧
      (downloadCalls (ParsePrimary (fixedCollab ["/tmp/Packages.gz"] ["/tmp/Packages"])
        "http://deb.debian.org/debian"
        "dists/stable/main/binary-amd64/Packages.gz" 0).trace).map Prod.snd =
      (downloadCalls (ParsePrimary (fixedCollab ["/tmp/Packages.gz"] ["/tmp/Packages"])
        "http://archive.ubuntu.com/ubuntu"
        "dists/noble/main/binary-amd64/Packages.gz" 0).trace).map Prod.snd := by
  decide

/-- C6, as the code behaves: every run invokes `Download` exactly once, and the
destination path it hands over is the fixed path `/tmp/Packages.gz`, whatever the
request. -/
theorem ParsePrimary_fixed_destination {σ : Type} (c : Collaborators σ)
    (baseURL gzHref : String) (w : σ) :
    (downloadCalls (ParsePrimary c baseURL gzHref w).trace).map Prod.snd =
      ["/tmp/Packages.gz"] := by
  rcases ParsePrimary_cases c baseURL gzHref w with
    ⟨e, _, hp⟩ | ⟨_, _, hp⟩ | ⟨first, rest, e, _, _, _, hp⟩ | ⟨first, rest, _, _, _, hp⟩ <;>
  · rw [hp]; simp [downloadCalls, PkgMetaFile]

/-- C7, the code at the failing input: with the href fixed, the two base URLs
`http://deb.debian.org/debian` and `http://archive.ubuntu.com/ubuntu` give the same
`Download` arguments (the href alone, with the fixed destination) and the same run,
for every collaborator pair and world. -/
theorem ParsePrimary_ignores_baseURL :
    "http://deb.debian.org/debian" ≠ "http://archive.ubuntu.com/ubuntu" ∧
      downloadCalls (ParsePrimary (fixedCollab ["/tmp/Packages.gz"] ["/tmp/Packages"])
        "http://deb.debian.org/debian"
        "dists/stable/main/binary-amd64/Packages.gz" 0).trace =
        [("dists/stable/main/binary-amd64/Packages.gz", "/tmp/Packages.gz")] ∧
      downloadCalls (ParsePrimary (fixedCollab ["/tmp/Packages.gz"] ["/tmp/Packages"])
        "http://archive.ubuntu.com/ubuntu"
        "dists/stable/main/binary-amd64/Packages.gz" 0).trace =
        [("dists/stable/main/binary-amd64/Packages.gz", "/tmp/Packages.gz")] ∧
      ∀ (σ : Type) (c : Collaborators σ) (w : σ),
        ParsePrimary c "http://deb.debian.org/debian"
          "dists/stable/main/binary-amd64/Packages.gz" w =
        ParsePrimary c "http://archive.ubuntu.com/ubuntu"
          "dists/stable/main/binary-amd64/Packages.gz" w :=
  ⟨by decide, by decide, by decide, fun _ _ _ => rfl⟩

/-- C9 (exact failure characterisation): every run of `ParsePrimary` returns; the
package slice it returns has length zero; and the error it returns is non-nil exactly
when `Download` returned an error, or `Download` returned an empty file list, or
`Decompress` applied to the first downloaded file (in the world `Download` left)
returned an error. -/
theorem ParsePrimary_fails_iff {σ : Type} (c : Collaborators σ) (baseURL gzHref : String)
    (w : σ) :
    ∃ pkgs err, (ParsePrimary c baseURL gzHref w).completion = .returned pkgs err ∧
      sliceLen pkgs = 0 ∧
      (err ≠ none ↔
        ((c.Download gzHref PkgMetaFile w).1.err ≠ none ∨
          (c.Download gzHref PkgMetaFile w).1.files = [] ∨
          ∃ first, (c.Download gzHref PkgMetaFile w).1.files.head? = some first ∧
            (c.Decompress first (c.Download gzHref PkgMetaFile w).2).1.err ≠ none)) := by
  rcases ParsePrimary_cases c baseURL gzHref w with
    ⟨e, he, hp⟩ | ⟨he, hf, hp⟩ | ⟨first, rest, e, he, hf, hd, hp⟩ | ⟨first, rest, he, hf, hd, hp⟩
  · exact ⟨none, some (downloadFailed e), by rw [hp], rfl, by simp [he]⟩
  · exact ⟨some [], some (noFilesDownloaded gzHref), by rw [hp], rfl, by simp [hf]⟩
  · exact ⟨some [], some e, by rw [hp], rfl, by simp [he, hf, hd]⟩
  · exact ⟨some [], none, by rw [hp], rfl, by simp [he, hf, hd]⟩

/-- C10 (first-file selection): when `Download` returns a non-empty list without error,
`ParsePrimary` returns (the index is in bounds) and it invokes `Decompress` exactly
once, on the first element, in the world `Download` left: the error it returns is the
one of that call, the world it leaves is the one that call left, and the trace is the
download, the decompression of the first file and, when that call succeeded, the
printing of the listing that call returned. A second `Download` that differs only in the
files after the first one gives the same run: same completion, same trace, same
world. -/
theorem ParsePrimary_first_file_only {σ : Type} (c1 c2 : Collaborators σ)
    (baseURL gzHref : String) (w w1 : σ) (first : String) (rest1 rest2 : List String)
    (hD : c1.Decompress = c2.Decompress)
    (h1 : c1.Download gzHref PkgMetaFile w = (⟨first :: rest1, none⟩, w1))
    (h2 : c2.Download gzHref PkgMetaFile w = (⟨first :: rest2, none⟩, w1)) :
    decompressCalls (ParsePrimary c1 baseURL gzHref w).trace = [first] ∧
      (ParsePrimary c1 baseURL gzHref w).completion.isReturned = true ∧
      ParsePrimary c1 baseURL gzHref w = ParsePrimary c2 baseURL gzHref w ∧
      (ParsePrimary c1 baseURL gzHref w).completion =
        .returned (some []) (c1.Decompress first w1).1.err ∧
      (ParsePrimary c1 baseURL gzHref w).world = (c1.Decompress first w1).2 ∧
      (ParsePrimary c1 baseURL gzHref w).trace =
        [Effect.download gzHref PkgMetaFile, Effect.decompress first] ++
          (match (c1.Decompress first w1).1.err with
            | none => [Effect.stdout (decompressedLine (c1.Decompress first w1).1.files)]
            | some _ => []) := by
  have e1 : (c1.Download gzHref PkgMetaFile w).1.err = none := by rw [h1]
  have f1 : (c1.Download gzHref PkgMetaFile w).1.files = first :: rest1 := by rw [h1]
  have e2 : (c2.Download gzHref PkgMetaFile w).1.err = none := by rw [h2]
  have f2 : (c2.Download gzHref PkgMetaFile w).1.files = first :: rest2 := by rw [h2]
  have w1eq : (c1.Download gzHref PkgMetaFile w).2 = w1 := by rw [h1]
  cases hd : (c1.Decompress first (c1.Download gzHref PkgMetaFile w).2).1.err with
  | some e =>
    have hd2 : (c2.Decompress first (c2.Download gzHref PkgMetaFile w).2).1.err = some e := by
      rw [h2, ← hD, ← hd, h1]
    have hd1 : (c1.Decompress first w1).1.err = some e := by rw [← w1eq]; exact hd
    have hd3 : (c2.Decompress first w1).1.err = some e := by rw [← hD]; exact hd1
    rw [ParsePrimary_of_decompress_err c1 baseURL gzHref w first rest1 e e1 f1 hd,
      ParsePrimary_of_decompress_err c2 baseURL gzHref w first rest2 e e2 f2 hd2]
    simp [decompressCalls, Completion.isReturned, h1, h2, hD, hd1, hd3]
  | none =>
    have hd2 : (c2.Decompress first (c2.Download gzHref PkgMetaFile w).2).1.err = none := by
      rw [h2, ← hD, ← hd, h1]
    have hd1 : (c1.Decompress first w1).1.err = none := by rw [← w1eq]; exact hd
    have hd3 : (c2.Decompress first w1).1.err = none := by rw [← hD]; exact hd1
    rw [ParsePrimary_of_decompress_ok c1 baseURL gzHref w first rest1 e1 f1 hd,
      ParsePrimary_of_decompress_ok c2 baseURL gzHref w first rest2 e2 f2 hd2]
    simp [decompressCalls, Completion.isReturned, h1, h2, hD, hd1, hd3]

/-- C10, instance: two downloads that agree on the first file only, followed by a
decompression that fails; the run ends with that failure in the world after both
calls. -/
theorem ParsePrimary_first_file_only_witness :
    decompressCalls (ParsePrimary
        (failingDecompress ["/tmp/Packages.gz", "/tmp/a"] ⟨"gzip: invalid header"⟩)
        "http://deb.debian.org/debian"
        "dists/stable/main/binary-amd64/Packages.gz" 0).trace = ["/tmp/Packages.gz"] ∧
      (ParsePrimary (failingDecompress ["/tmp/Packages.gz", "/tmp/a"] ⟨"gzip: invalid header"⟩)
        "http://deb.debian.org/debian"
        "dists/stable/main/binary-amd64/Packages.gz" 0).completion.isReturned = true ∧
      ParsePrimary (failingDecompress ["/tmp/Packages.gz", "/tmp/a"] ⟨"gzip: invalid header"⟩)
        "http://deb.debian.org/debian" "dists/stable/main/binary-amd64/Packages.gz" 0 =
      ParsePrimary
        (failingDecompress ["/tmp/Packages.gz", "/tmp/b", "/tmp/c"] ⟨"gzip: invalid header"⟩)
        "http://deb.debian.org/debian" "dists/stable/main/binary-amd64/Packages.gz" 0 ∧
      (ParsePrimary (failingDecompress ["/tmp/Packages.gz", "/tmp/a"] ⟨"gzip: invalid header"⟩)
        "http://deb.debian.org/debian"
        "dists/stable/main/binary-amd64/Packages.gz" 0).completion =
        .returned (some []) (some ⟨"gzip: invalid header"⟩) ∧
      (ParsePrimary (failingDecompress ["/tmp/Packages.gz", "/tmp/a"] ⟨"gzip: invalid header"⟩)
        "http://deb.debian.org/debian"
        "dists/stable/main/binary-amd64/Packages.gz" 0).world = 2 ∧
      (ParsePrimary (failingDecompress ["/tmp/Packages.gz", "/tmp/a"] ⟨"gzip: invalid header"⟩)
        "http://deb.debian.org/debian"
        "dists/stable/main/binary-amd64/Packages.gz" 0).trace =
        [Effect.download "dists/stable/main/binary-amd64/Packages.gz" PkgMetaFile,
          Effect.decompress "/tmp/Packages.gz"] :=
  ParsePrimary_first_file_only
    (failingDecompress ["/tmp/Packages.gz", "/tmp/a"] ⟨"gzip: invalid header"⟩)
    (failingDecompress ["/tmp/Packages.gz", "/tmp/b", "/tmp/c"] ⟨"gzip: invalid header"⟩)
    "http://deb.debian.org/debian" "dists/stable/main/binary-amd64/Packages.gz" 0 1
    "/tmp/Packages.gz" ["/tmp/a"] ["/tmp/b", "/tmp/c"] rfl rfl rfl

end Debutils

namespace Validate

/-! ### Shared lemmas about the image-template validator -/

/-- An absent required leaf is a violation. -/
theorem requiredLeaf_missing (S : ImageSchema) (parent : JSON) (schemaPath docPath key : String)
    (h : parent.field? key = none) : requiredLeaf S parent schemaPath docPath key ≠ [] := by
  simp [requiredLeaf, h]

/-- An absent leaf among the required ones is a violation. -/
theorem requiredLeaves_missing (S : ImageSchema) (parent : JSON) (path key : String)
    (keys : List String) (hk : key ∈ keys) (h : parent.field? key = none) :
    requiredLeaves S parent path keys ≠ [] := by
  induction keys with
  | nil => simp at hk
  | cons k ks ih =>
    rcases List.mem_cons.mp hk with rfl | hmem
    · simp [requiredLeaves, requiredLeaf_missing S parent path path key h]
    · simp [requiredLeaves, ih hmem]

/-- A block that lacks one of its required leaves, or is itself absent, is a violation. -/
theorem checkSection_missing (S : ImageSchema) (doc : JSON) (name key : String)
    (keys : List String) (hk : key ∈ keys) (h : doc.at? [name, key] = none) :
    checkSection S doc name keys ≠ [] := by
  unfold checkSection
  cases hf : doc.field? name with
  | none => simp
  | some v =>
    have hv : v.field? key = none := by
      simpa [JSON.at?, hf] using h
    cases v with
    | obj fields => exact requiredLeaves_missing S _ name key keys hk hv
    | null => simp
    | bool b => simp
    | num n => simp
    | str s => simp
    | arr items => simp

/-- A document without one of the required leaves has a violation. -/
theorem imageViolations_missing (S : ImageSchema) (doc : JSON) (name key : String)
    (hp : (name, key) ∈ requiredLeafPaths) (h : doc.at? [name, key] = none) :
    imageViolations S doc ≠ [] := by
  cases doc with
  | obj fields =>
    simp only [requiredLeafPaths, List.mem_cons, Prod.mk.injEq, List.mem_singleton,
      List.not_mem_nil, or_false] at hp
    simp only [imageViolations]
    rcases hp with ⟨rfl, rfl⟩ | ⟨rfl, rfl⟩ | ⟨rfl, rfl⟩ | ⟨rfl, rfl⟩ | ⟨rfl, rfl⟩ | ⟨rfl, rfl⟩
    · have := checkSection_missing S (.obj fields) "image" "name" ["name", "version"] (by simp) h
      simp [this]
    · have := checkSection_missing S (.obj fields) "image" "version" ["name", "version"] (by simp) h
      simp [this]
    · have := checkSection_missing S (.obj fields) "target" "os"
        ["os", "dist", "arch", "imageType"] (by simp) h
      simp [this]
    · have := checkSection_missing S (.obj fields) "target" "dist"
        ["os", "dist", "arch", "imageType"] (by simp) h
      simp [this]
    · have := checkSection_missing S (.obj fields) "target" "arch"
        ["os", "dist", "arch", "imageType"] (by simp) h
      simp [this]
    · have := checkSection_missing S (.obj fields) "target" "imageType"
        ["os", "dist", "arch", "imageType"] (by simp) h
      simp [this]
  | null => simp [imageViolations]
  | bool b => simp [imageViolations]
  | num n => simp [imageViolations]
  | str s => simp [imageViolations]
  | arr items => simp [imageViolations]

/-- The validator accepts exactly the documents without violations. -/
theorem ValidateImageJSON_eq_none_iff (S : ImageSchema) (doc : JSON) :
    ValidateImageJSON S (some doc) = none ↔ imageViolations S doc = [] := by
  cases hv : imageViolations S doc <;> simp [ValidateImageJSON, hv]

/-- The minimal template has no violation under a schema that admits its values. -/
theorem minimalTemplate_valid (S : ImageSchema) (h : admitsMinimalTemplate S) :
    imageViolations S minimalTemplate = [] := by
  obtain ⟨h1, h2, h3, h4, h5, h6, h7, h8, h9⟩ := h
  simp [imageViolations, minimalTemplate, checkSection, requiredLeaves, requiredLeaf,
    JSON.field?, List.lookup, checkSystemConfigsField, checkSystemConfigs, checkSystemConfig,
    checkKernel, optionalLeaf, checkPackages, checkPackage, checkUniqueNames, configNames,
    h1, h2, h3, h4, h5, h6, h7, h8, h9]

/-- A configuration block without `name` or `packages` is a violation. -/
theorem checkSystemConfig_missing (S : ImageSchema) (docPath : String) (cfg : JSON)
    (h : cfg.field? "name" = none ∨ cfg.field? "packages" = none) :
    checkSystemConfig S docPath cfg ≠ [] := by
  cases cfg with
  | obj fields =>
    rcases h with h | h
    · simp [checkSystemConfig, requiredLeaf, h]
    · simp [checkSystemConfig, h]
  | null => simp [checkSystemConfig]
  | bool b => simp [checkSystemConfig]
  | num n => simp [checkSystemConfig]
  | str s => simp [checkSystemConfig]
  | arr items => simp [checkSystemConfig]

/-- A sequence with such a configuration block has a violation. -/
theorem checkSystemConfigs_missing (S : ImageSchema) (cfgs : List JSON) (cfg : JSON)
    (hm : cfg ∈ cfgs) (h : cfg.field? "name" = none ∨ cfg.field? "packages" = none) :
    ∀ i : Nat, checkSystemConfigs S i cfgs ≠ [] := by
  induction cfgs with
  | nil => simp at hm
  | cons c cs ih =>
    intro i
    rcases List.mem_cons.mp hm with rfl | hmem
    · simp [checkSystemConfigs, checkSystemConfig_missing S _ cfg h]
    · simp [checkSystemConfigs, ih hmem (i + 1)]

/-- A document with such a configuration block has a violation. -/
theorem imageViolations_config_missing (S : ImageSchema) (doc : JSON) (cfgs : List JSON)
    (cfg : JSON) (hs : doc.field? "systemConfigs" = some (.arr cfgs)) (hm : cfg ∈ cfgs)
    (h : cfg.field? "name" = none ∨ cfg.field? "packages" = none) :
    imageViolations S doc ≠ [] := by
  cases doc with
  | obj fields =>
    simp [imageViolations, checkSystemConfigsField, hs,
      checkSystemConfigs_missing S cfgs cfg hm h 0]
  | null => simp [imageViolations]
  | bool b => simp [imageViolations]
  | num n => simp [imageViolations]
  | str s => simp [imageViolations]
  | arr items => simp [imageViolations]

/-! ### The claim about `ValidateImageJSON` -/

/-- C8 (required-field enforcement), against the validator modelled from the spec and for
every schema table `S`: a document that lacks one of the required leaves of the `image`
and `target` blocks (`image.name`, `image.version`, `target.os`, `target.dist`,
`target.arch`, `target.imageType`) is rejected, and so is one with a configuration block
that lacks its `name` or its `packages`; the template of `TestImageTemplateMissingFields`
lacks `image.version` and `target.imageType` and is rejected; the minimal template of
`TestImageTemplateStructure` is accepted as soon as `S` admits the values of its
leaves. -/
theorem ValidateImageJSON_required_fields (S : ImageSchema) :
    (∀ (doc : JSON) (name key : String), (name, key) ∈ requiredLeafPaths →
        doc.at? [name, key] = none → ValidateImageJSON S (some doc) ≠ none) ∧
    (∀ (doc : JSON) (cfgs : List JSON) (cfg : JSON),
        doc.field? "systemConfigs" = some (.arr cfgs) → cfg ∈ cfgs →
        (cfg.field? "name" = none ∨ cfg.field? "packages" = none) →
        ValidateImageJSON S (some doc) ≠ none) ∧
    (invalidTemplate.at? ["image", "version"] = none ∧
      invalidTemplate.at? ["target", "imageType"] = none ∧
      ValidateImageJSON S (some invalidTemplate) ≠ none) ∧
    (admitsMinimalTemplate S → ValidateImageJSON S (some minimalTemplate) = none) := by
  refine ⟨?_, ?_, ⟨rfl, rfl, ?_⟩, ?_⟩
  · intro doc name key hp h hv
    exact imageViolations_missing S doc name key hp h ((ValidateImageJSON_eq_none_iff S doc).mp hv)
  · intro doc cfgs cfg hs hm h hv
    exact imageViolations_config_missing S doc cfgs cfg hs hm h
      ((ValidateImageJSON_eq_none_iff S doc).mp hv)
  · intro hv
    exact imageViolations_missing S invalidTemplate "image" "version" (by decide) rfl
      ((ValidateImageJSON_eq_none_iff S _).mp hv)
  · intro h
    exact (ValidateImageJSON_eq_none_iff S _).mpr (minimalTemplate_valid S h)

/-- C8, instance: the sample schema table on the two test templates and on two smaller documents. -/
theorem ValidateImageJSON_required_fields_witness :
    admitsMinimalTemplate sampleSchema ∧
      ValidateImageJSON sampleSchema (some minimalTemplate) = none ∧
      ValidateImageJSON sampleSchema (some invalidTemplate) ≠ none ∧
      ValidateImageJSON sampleSchema
        (some (.obj [("image", .obj [("name", .str "test-image")])])) ≠ none ∧
      ValidateImageJSON sampleSchema
        (some (.obj [("systemConfigs", .arr [.obj [("name", .str "incomplete")]])])) ≠ none :=
  ⟨by simp [admitsMinimalTemplate, sampleSchema],
    (ValidateImageJSON_required_fields sampleSchema).2.2.2
      (by simp [admitsMinimalTemplate, sampleSchema]),
    (ValidateImageJSON_required_fields sampleSchema).2.2.1.2.2,
    (ValidateImageJSON_required_fields sampleSchema).1
      (.obj [("image", .obj [("name", .str "test-image")])]) "image" "version" (by decide) rfl,
    (ValidateImageJSON_required_fields sampleSchema).2.1
      (.obj [("systemConfigs", .arr [.obj [("name", .str "incomplete")]])])
      [.obj [("name", .str "incomplete")]] (.obj [("name", .str "incomplete")])
      rfl (List.mem_singleton.mpr rfl) (Or.inr rfl)⟩

end Validate
